import Mathlib

/-!
Shallow embedding of the forecast-and-anomaly core of the retail BI
pipeline (`retail_bi.py`, `streamlit_app.py`).

Modelling conventions:
* Calendar months are month codes `ℕ` (a `pd.Timestamp` at a month start,
  `to_period("M")`, is `12 * year + (month - 1)`); consecutive codes are
  consecutive calendar months, matching frequency `"MS"`.
* Python floats are embedded as `ℚ` (`ℝ` where a square root is needed);
  `NaN`/`±inf` cells are `Option ℚ` with `none` for invalid values.
* The SARIMAX library call (`model.fit`, `res.get_forecast`, `conf_int`) is
  an external library, modelled by its interface: a `SarimaxFit` record
  carrying the in-sample residuals, the predicted means for the requested
  steps, and the 80% confidence-interval columns, plus the convergence
  flag of the optimizer.  The post-processing applied to these values is
  translated from the source.
-/

namespace RetailBI

/-- Arithmetic mean of a list of rationals, `sum / len` (pandas `.mean()`;
the mean of an empty list is junk `0/0 = 0`, never used on live paths). -/
def mean (xs : List ℚ) : ℚ := xs.sum / xs.length

/-- One row of the forecast DataFrame: future month index and the columns
`yhat`, `lower`, `upper` of `forecast_with_ci`. -/
structure Fc where
  month : ℕ
  yhat : ℚ
  lower : ℚ
  upper : ℚ
deriving DecidableEq, Repr

/-- Interface model of the fitted SARIMAX result used by
`forecast_with_ci`: `res.resid`, `res.get_forecast(steps).predicted_mean`,
the two columns of `conf_int(alpha=0.20)`, and whether the maximum
likelihood optimizer converged (the source never inspects this flag). -/
structure SarimaxFit where
  resid : List ℚ
  predMean : List ℚ
  ciLower : List ℚ
  ciUpper : List ℚ
  converged : Bool
deriving DecidableEq, Repr

/-- `pd.to_numeric(..., errors="coerce").replace([inf,-inf], nan).dropna()`:
keep only the valid numeric cells of the input series. -/
def dropna (total : List (ℕ × Option ℚ)) : List (ℕ × ℚ) :=
  total.filterMap (fun p => p.2.map (fun v => (p.1, v)))

/-- `s.rolling(3, min_periods=1).mean()` at position `i`: the mean of the
window of values at indices `max(i-2,0) .. i` (truncated ℕ subtraction
gives exactly that window). -/
def rollingMean3 (vs : List ℚ) (i : ℕ) : ℚ :=
  mean ((vs.take (i + 1)).drop (i - 2))

/-- `s - s.rolling(3, min_periods=1).mean()`: the fallback residuals, one
per historical month of `s`. -/
def residualsFallback (s : List (ℕ × ℚ)) : List (ℕ × ℚ) :=
  (List.range s.length).map
    (fun i => ((s.getD i (0, 0)).1, (s.getD i (0, 0)).2 - rollingMean3 (s.map Prod.snd) i))

/-- `forecast_with_ci(total, steps)` from `retail_bi.py`.

`today` is the month code of `pd.Timestamp.today()` (the clock read used
only on the empty-input branch); `fit` is the interface model of the
SARIMAX fit used only on the `len(s) >= 8` branch.  Returns the pair
`(forecast rows, residual series)`. -/
def forecast_with_ci (today : ℕ) (fit : SarimaxFit)
    (total : List (ℕ × Option ℚ)) (steps : ℕ) :
    List Fc × List (ℕ × ℚ) :=
  let s := dropna total
  if s.isEmpty then
    ((List.range steps).map (fun i => ⟨today + i, 0, 0, 0⟩), [])
  else
    let lastM := (s.getLastD (0, 0)).1
    let base := (s.getLastD (0, 0)).2
    if s.length < 8 then
      ((List.range steps).map (fun i => ⟨lastM + 1 + i, base, base, base⟩),
       residualsFallback s)
    else
      ((List.range fit.predMean.length).map
         (fun i => ⟨lastM + 1 + i, max 0 (fit.predMean.getD i 0),
                    max 0 (fit.ciLower.getD i 0), max 0 (fit.ciUpper.getD i 0)⟩),
       (s.map Prod.fst).zip fit.resid)

/-- A placeholder fit for invocations that never reach the SARIMAX branch. -/
def trivialFit : SarimaxFit := ⟨[], [], [], [], true⟩

/-- `totals_series(monthly)` from `retail_bi.py`:
`monthly.groupby("Month")["Revenue"].sum().sort_index().asfreq("MS", fill_value=0.0)`.
The grouped, sorted, gap-filled series assigns to every month from the
smallest to the largest observed month the sum of the matching revenues
(an absent month has an empty group, hence the fill value `0.0`). -/
def totals_series (monthly : List (ℕ × ℚ)) : List (ℕ × ℚ) :=
  match (monthly.map Prod.fst).min?, (monthly.map Prod.fst).max? with
  | some lo, some hi =>
      (List.range (hi + 1 - lo)).map
        (fun i => (lo + i, ((monthly.filter (fun p => p.1 = lo + i)).map Prod.snd).sum))
  | _, _ => []

/-- A calendar date `(year, month, day)`; `pd.to_datetime` values in the
`InvoiceDate` column. -/
def Date := ℕ × ℕ × ℕ
deriving DecidableEq, Repr

/-- `ts.to_period("M").to_timestamp()`: the month code of a date. -/
def monthCode (d : Date) : ℕ := 12 * d.1 + (d.2.1 - 1)

/-- The cleaned transactions DataFrame as `monthly_agg` sees it: the
columns it touches (`InvoiceDate`, `Revenue`, `Country`, `Category` as
parallel lists; country and category names are modelled as codes) plus
the `Month` column, `none` when the frame has no such column. -/
structure TxFrame where
  invoiceDate : List Date
  revenue : List ℚ
  country : List ℕ
  category : List ℕ
  month : Option (List ℕ)
deriving DecidableEq, Repr

/-- Stable insertion of `x` into `l` in front of the first element `y`
with `le x y`. -/
def insertLe (le : α → α → Bool) (x : α) : List α → List α
  | [] => [x]
  | y :: ys => if le x y then x :: y :: ys else y :: insertLe le x ys

/-- Sort `l` by the boolean comparison `le` (insertion sort; models
`DataFrame.sort_values`). -/
def sortLe (le : α → α → Bool) (l : List α) : List α :=
  l.foldr (insertLe le) []

/-- Comparison for `sort_values(["Month", "Revenue"], ascending=[True, False])`
on grouped rows `((month, country, category), revenue)`. -/
def aggLe (a b : (ℕ × ℕ × ℕ) × ℚ) : Bool :=
  decide (a.1.1 < b.1.1) || (decide (a.1.1 = b.1.1) && decide (b.2 ≤ a.2))

/-- `df.groupby(["Month","Country","Category"], as_index=False)["Revenue"].sum()`
followed by the two-key sort: one row per distinct key triple with the
summed revenue. -/
def groupedRows (df : TxFrame) : List ((ℕ × ℕ × ℕ) × ℚ) :=
  let rows := ((df.month.getD []).zip (df.country.zip df.category)).zip df.revenue
  sortLe aggLe
    ((rows.map Prod.fst).dedup.map
      (fun k => (k, ((rows.filter (fun r => r.1 = k)).map Prod.snd).sum)))

/-- `monthly_agg(df)` from `retail_bi.py`.  The first component is the
state of the caller's DataFrame object after the call: the statement
`df["Month"] = df["InvoiceDate"].dt.to_period("M").dt.to_timestamp()`
writes the `Month` column into that object in place before grouping.
The second component is the returned grouped aggregation. -/
def monthly_agg (df : TxFrame) : TxFrame × List ((ℕ × ℕ × ℕ) × ℚ) :=
  let df2 : TxFrame :=
    ⟨df.invoiceDate, df.revenue, df.country, df.category,
     some (df.invoiceDate.map monthCode)⟩
  (df2, groupedRows df2)

/-- Modelled from the spec: population variance of the residual values,
`mean((x - mean xs)^2)` — divisor `N`, not `N - 1` (§4.3; the definition
of `detect_anomalies` is absent from `src/`, only its import and call
sites exist). -/
def popVar (xs : List ℚ) : ℚ := mean (xs.map (fun x => (x - mean xs) ^ 2))

/-- Modelled from the spec: population standard deviation of the residual
values (§4.3). -/
noncomputable def popStd (xs : List ℚ) : ℝ := Real.sqrt (popVar xs)

/-- One output record of the anomaly detector: `(Month, Residual, Z, Anomaly)`. -/
structure AnomalyRecord where
  month : ℕ
  residual : ℚ
  score : ℝ
  isAnomaly : Prop

/-- Modelled from the spec: `detect_anomalies(residuals, z)` (§4.3) — the
definition is absent from `src/`, only its import in `streamlit_app.py`
and its call at `retail_bi.py:253` exist.  Per residual month: the
standardized score `(residual - mean) / stddev`, defined as `0` whenever
the population standard deviation is `0`, and the flag
`isAnomaly = |score| >= threshold`; the input month ordering is kept. -/
noncomputable def detect_anomalies (rs : List (ℕ × ℚ)) (t : ℝ) :
    List AnomalyRecord :=
  let vals := rs.map Prod.snd
  let μ : ℚ := mean vals
  let σ : ℝ := popStd vals
  rs.map (fun p =>
    ⟨p.1, p.2,
     if σ = 0 then 0 else ((p.2 : ℝ) - (μ : ℝ)) / σ,
     |if σ = 0 then 0 else ((p.2 : ℝ) - (μ : ℝ)) / σ| ≥ t⟩)

/-- Modelled from the spec: the fixed widening factor of the Confidence
Rescaler (§4.4) — no rescaler implementation exists under `src/`
(`run_pipeline` in `streamlit_app.py` forwards the requested level into
the forecast call).  `80% -> 1.00`, `85% -> 1.15`, `90% -> 1.35`,
`95% -> 1.80`, any unlisted level `-> 1.00`. -/
def rescaleFactor (level : ℕ) : ℚ :=
  if level = 80 then 1
  else if level = 85 then 23 / 20
  else if level = 90 then 27 / 20
  else if level = 95 then 9 / 5
  else 1

/-- Modelled from the spec: rescale one forecast record to the requested
confidence level (§4.4): multiply each half-width around the point
estimate by the fixed factor, then re-clamp both bounds to be
non-negative. -/
def rescale_ci (level : ℕ) (r : Fc) : Fc :=
  ⟨r.month, r.yhat,
   max 0 (r.yhat - (r.yhat - r.lower) * rescaleFactor level),
   max 0 (r.yhat + (r.upper - r.yhat) * rescaleFactor level)⟩

/-! ### Helper lemmas -/

lemma getD_range_map {α : Type _} (f : ℕ → α) {n i : ℕ} (d : α) (h : i < n) :
    ((List.range n).map f).getD i d = f i := by
  have hlen : i < ((List.range n).map f).length := by simpa using h
  rw [List.getD_eq_getElem _ _ hlen]
  simp

lemma window_length (vs : List ℚ) {i : ℕ} (h : i < vs.length) :
    ((vs.take (i + 1)).drop (i - 2)).length = min (i + 1) 3 := by
  simp only [List.length_drop, List.length_take]
  omega

lemma dropna_isEmpty_false {total : List (ℕ × Option ℚ)}
    (h : dropna total ≠ []) : (dropna total).isEmpty = false := by
  simpa [List.isEmpty_iff] using h

/-- Normal form of `forecast_with_ci` on the short-history branch. -/
lemma fwc_fallback_eq (today : ℕ) (fit : SarimaxFit)
    (total : List (ℕ × Option ℚ)) (steps : ℕ)
    (h1 : dropna total ≠ []) (h2 : (dropna total).length < 8) :
    forecast_with_ci today fit total steps =
      ((List.range steps).map
         (fun i => ⟨((dropna total).getLastD (0, 0)).1 + 1 + i,
                    ((dropna total).getLastD (0, 0)).2,
                    ((dropna total).getLastD (0, 0)).2,
                    ((dropna total).getLastD (0, 0)).2⟩),
       residualsFallback (dropna total)) := by
  simp only [forecast_with_ci, dropna_isEmpty_false h1, Bool.false_eq_true,
    if_false, if_pos h2]

/-- Normal form of `forecast_with_ci` on the empty-series branch. -/
lemma fwc_empty_eq (today : ℕ) (fit : SarimaxFit)
    (total : List (ℕ × Option ℚ)) (steps : ℕ)
    (h : dropna total = []) :
    forecast_with_ci today fit total steps =
      ((List.range steps).map (fun i => ⟨today + i, 0, 0, 0⟩), []) := by
  simp only [forecast_with_ci, h, List.isEmpty_nil, if_true]

/-- Normal form of `forecast_with_ci` on the SARIMAX branch. -/
lemma fwc_sarimax_eq (today : ℕ) (fit : SarimaxFit)
    (total : List (ℕ × Option ℚ)) (steps : ℕ)
    (h8 : 8 ≤ (dropna total).length) :
    forecast_with_ci today fit total steps =
      ((List.range fit.predMean.length).map
         (fun i => ⟨((dropna total).getLastD (0, 0)).1 + 1 + i,
                    max 0 (fit.predMean.getD i 0),
                    max 0 (fit.ciLower.getD i 0),
                    max 0 (fit.ciUpper.getD i 0)⟩),
       ((dropna total).map Prod.fst).zip fit.resid) := by
  have h1 : dropna total ≠ [] := by
    intro he
    rw [he] at h8
    simp at h8
  simp only [forecast_with_ci, dropna_isEmpty_false h1, Bool.false_eq_true,
    if_false, if_neg (Nat.not_lt.mpr h8)]

/-! ### Claim theorems -/

/-- Claim C1: for every non-empty monthly revenue series with fewer than
8 months (after dropping invalid values) and every horizon `steps >= 1`,
`forecast_with_ci` returns exactly `steps` forecast records whose `yhat`,
`lower` and `upper` all equal the last observed revenue value, and the
returned residuals are `actual - trailing 3-month mean (min window 1)`
for every historical month, the window at position `i` holding
`min (i+1) 3 >= 1` values. -/
theorem c1_short_series_persistence (today : ℕ) (fit : SarimaxFit)
    (total : List (ℕ × Option ℚ)) (steps : ℕ)
    (h1 : dropna total ≠ []) (h2 : (dropna total).length < 8) (_h3 : 1 ≤ steps) :
    (forecast_with_ci today fit total steps).1.length = steps ∧
    (∀ r ∈ (forecast_with_ci today fit total steps).1,
        r.yhat = ((dropna total).getLastD (0, 0)).2 ∧
        r.lower = ((dropna total).getLastD (0, 0)).2 ∧
        r.upper = ((dropna total).getLastD (0, 0)).2) ∧
    (forecast_with_ci today fit total steps).2.length = (dropna total).length ∧
    (∀ i, i < (dropna total).length →
        (forecast_with_ci today fit total steps).2.getD i (0, 0) =
          (((dropna total).getD i (0, 0)).1,
           ((dropna total).getD i (0, 0)).2 -
             mean ((((dropna total).map Prod.snd).take (i + 1)).drop (i - 2))) ∧
        ((((dropna total).map Prod.snd).take (i + 1)).drop (i - 2)).length =
          min (i + 1) 3) := by
  rw [fwc_fallback_eq today fit total steps h1 h2]
  refine ⟨by simp, ?_, by simp [residualsFallback], ?_⟩
  · intro r hr
    obtain ⟨i, _, rfl⟩ := List.mem_map.mp hr
    exact ⟨rfl, rfl, rfl⟩
  · intro i hi
    constructor
    · rw [residualsFallback, getD_range_map _ _ hi, rollingMean3]
    · exact window_length _ (by simpa using hi)

/-- Witness for C1 at the concrete series `[(0, 10), (1, 20)]`, horizon 2:
two persistence records with value 20 and residuals `[(0,0), (1,5)]`. -/
theorem c1_short_series_persistence_witness :
    (forecast_with_ci 0 trivialFit [(0, some 10), (1, some 20)] 2).1.length = 2 ∧
    (forecast_with_ci 0 trivialFit [(0, some 10), (1, some 20)] 2).1.getD 0
      ⟨0, 0, 0, 0⟩ = ⟨2, 20, 20, 20⟩ ∧
    (forecast_with_ci 0 trivialFit [(0, some 10), (1, some 20)] 2).2.getD 1
      (0, 0) = (1, 5) := by
  have h := c1_short_series_persistence 0 trivialFit
    [(0, some 10), (1, some 20)] 2 (by decide) (by decide) (by decide)
  refine ⟨h.1, by decide, ?_⟩
  rw [(h.2.2.2 1 (by decide)).1]
  norm_num [dropna, mean, List.filterMap_cons, List.filterMap_nil]

/-- Counterexample to claim C2: on the series `[(5, none)]`, which drops
to empty after invalid values are removed, `forecast_with_ci` does not
fail — it returns a non-empty forecast of 3 fabricated months (from the
current month, here `7`) with all values `0.0`. -/
theorem c2_empty_input_counterexample :
    (forecast_with_ci 7 trivialFit [(5, none)] 3).1 =
      [⟨7, 0, 0, 0⟩, ⟨8, 0, 0, 0⟩, ⟨9, 0, 0, 0⟩] ∧
    (forecast_with_ci 7 trivialFit [(5, none)] 3).1 ≠ [] ∧
    (forecast_with_ci 7 trivialFit [(5, none)] 3).2 = [] := by
  refine ⟨by decide, by decide, by decide⟩

/-- Claim C2 as amended: for every input series with zero months —
including one that becomes empty after invalid or infinite values are
coerced to missing and dropped — `forecast_with_ci` does not surface an
error: it returns `steps` records with `yhat = lower = upper = 0.0`,
indexed consecutively from the current month, together with empty
residuals. -/
theorem c2_empty_input_zero_forecast (today : ℕ) (fit : SarimaxFit)
    (total : List (ℕ × Option ℚ)) (steps : ℕ)
    (h : dropna total = []) :
    (forecast_with_ci today fit total steps).1.length = steps ∧
    (∀ i, i < steps →
        (forecast_with_ci today fit total steps).1.getD i ⟨0, 0, 0, 0⟩ =
          ⟨today + i, 0, 0, 0⟩) ∧
    (forecast_with_ci today fit total steps).2 = [] := by
  rw [fwc_empty_eq today fit total steps h]
  refine ⟨by simp, ?_, rfl⟩
  intro i hi
  exact getD_range_map _ _ hi

/-- Witness for the amended C2 at the concrete input `[(5, none)]` with
`steps = 3` and current month `7`. -/
theorem c2_empty_input_zero_forecast_witness :
    (forecast_with_ci 7 trivialFit [(5, none)] 3).1.length = 3 ∧
    (forecast_with_ci 7 trivialFit [(5, none)] 3).1.getD 2 ⟨0, 0, 0, 0⟩ =
      ⟨9, 0, 0, 0⟩ := by
  have h := c2_empty_input_zero_forecast 7 trivialFit [(5, none)] 3 (by decide)
  exact ⟨h.1, h.2.1 2 (by decide)⟩

/-- Claim C3: for every valid series with at least 8 months (after
dropping invalid values) and horizon `steps >= 1`, given the documented
interface of the statsmodels forecast object — `get_forecast(steps)`
yields `steps` predictions and `conf_int` brackets the predicted mean —
`forecast_with_ci` returns exactly `steps` records, each satisfying
`0 <= lower <= yhat <= upper`, with the forecast months contiguous
starting the month after the last month of the series. -/
theorem c3_sarimax_records_bounds (today : ℕ) (fit : SarimaxFit)
    (total : List (ℕ × Option ℚ)) (steps : ℕ)
    (h8 : 8 ≤ (dropna total).length) (_hsteps : 1 ≤ steps)
    (hlen : fit.predMean.length = steps)
    (hbr : ∀ i, i < steps →
        fit.ciLower.getD i 0 ≤ fit.predMean.getD i 0 ∧
        fit.predMean.getD i 0 ≤ fit.ciUpper.getD i 0) :
    (forecast_with_ci today fit total steps).1.length = steps ∧
    (∀ i, i < steps →
        ((forecast_with_ci today fit total steps).1.getD i ⟨0, 0, 0, 0⟩).month =
          ((dropna total).getLastD (0, 0)).1 + 1 + i ∧
        0 ≤ ((forecast_with_ci today fit total steps).1.getD i ⟨0, 0, 0, 0⟩).lower ∧
        ((forecast_with_ci today fit total steps).1.getD i ⟨0, 0, 0, 0⟩).lower ≤
          ((forecast_with_ci today fit total steps).1.getD i ⟨0, 0, 0, 0⟩).yhat ∧
        ((forecast_with_ci today fit total steps).1.getD i ⟨0, 0, 0, 0⟩).yhat ≤
          ((forecast_with_ci today fit total steps).1.getD i ⟨0, 0, 0, 0⟩).upper) := by
  rw [fwc_sarimax_eq today fit total steps h8]
  constructor
  · simp [hlen]
  · intro i hi
    rw [getD_range_map _ _ (by omega : i < fit.predMean.length)]
    refine ⟨rfl, le_max_left 0 _, ?_, ?_⟩
    · exact max_le_max le_rfl (hbr i hi).1
    · exact max_le_max le_rfl (hbr i hi).2

/-- Witness for C3: an 8-month constant series, one forecast step, a fit
whose prediction is 10 with confidence interval `[5, 20]`. -/
theorem c3_sarimax_records_bounds_witness :
    (forecast_with_ci 0 ⟨[], [10], [5], [20], true⟩
      ((List.range 8).map (fun i => (i, some 100))) 1).1.length = 1 ∧
    ((forecast_with_ci 0 ⟨[], [10], [5], [20], true⟩
      ((List.range 8).map (fun i => (i, some 100))) 1).1.getD 0
        ⟨0, 0, 0, 0⟩).month = 8 ∧
    0 ≤ ((forecast_with_ci 0 ⟨[], [10], [5], [20], true⟩
      ((List.range 8).map (fun i => (i, some 100))) 1).1.getD 0
        ⟨0, 0, 0, 0⟩).lower := by
  have h := c3_sarimax_records_bounds 0 ⟨[], [10], [5], [20], true⟩
    ((List.range 8).map (fun i => (i, some 100))) 1
    (by decide) (by decide) (by decide) (by decide)
  have h0 := h.2 0 (by decide)
  exact ⟨h.1, by simpa using h0.1, h0.2.1⟩

/-- An 8-month constant series used to exercise the SARIMAX branch. -/
def series8 : List (ℕ × Option ℚ) := (List.range 8).map (fun i => (i, some 100))

/-- A fit whose optimizer did not converge and whose forecast differs
from the last observed value. -/
def nonConvergedFit : SarimaxFit := ⟨[], [50], [40], [60], false⟩

/-- Counterexample to claim C4: on an 8-month series whose fit did not
converge, `forecast_with_ci` does not produce the persistence fallback
(which would repeat the last observed value `100` with a zero-width
band): it returns the fitted model's forecast `(50, 40, 60)` unchanged. -/
theorem c4_no_convergence_fallback_counterexample :
    nonConvergedFit.converged = false ∧
    (forecast_with_ci 0 nonConvergedFit series8 1).1 = [⟨8, 50, 40, 60⟩] ∧
    (forecast_with_ci 0 nonConvergedFit series8 1).1 ≠ [⟨8, 100, 100, 100⟩] := by
  refine ⟨rfl, by decide, by decide⟩

/-- Claim C4 as amended: `forecast_with_ci` never inspects whether the
fit converged — for every series with at least 8 valid months the output
is identical for a converged and a non-converged fit, and the point
forecasts are the fitted model's clipped predictions (not the
persistence value).  The source wraps `model.fit` in no handler, so no
persistence fallback exists on the SARIMAX path. -/
theorem c4_fit_used_regardless_of_convergence (today : ℕ)
    (total : List (ℕ × Option ℚ)) (steps : ℕ)
    (r p lo hi : List ℚ) (b b' : Bool)
    (h8 : 8 ≤ (dropna total).length) :
    forecast_with_ci today ⟨r, p, lo, hi, b⟩ total steps =
      forecast_with_ci today ⟨r, p, lo, hi, b'⟩ total steps ∧
    (forecast_with_ci today ⟨r, p, lo, hi, b⟩ total steps).1.map Fc.yhat =
      (List.range p.length).map (fun i => max 0 (p.getD i 0)) := by
  rw [fwc_sarimax_eq today ⟨r, p, lo, hi, b⟩ total steps h8,
    fwc_sarimax_eq today ⟨r, p, lo, hi, b'⟩ total steps h8]
  exact ⟨rfl, by simp⟩

/-- Witness for the amended C4 at the concrete 8-month series and the
non-converged fit. -/
theorem c4_fit_used_regardless_of_convergence_witness :
    forecast_with_ci 0 ⟨[], [50], [40], [60], false⟩ series8 1 =
      forecast_with_ci 0 ⟨[], [50], [40], [60], true⟩ series8 1 ∧
    (forecast_with_ci 0 ⟨[], [50], [40], [60], false⟩ series8 1).1.map Fc.yhat =
      [50] := by
  have h := c4_fit_used_regardless_of_convergence 0 series8 1
    [] [50] [40] [60] false true (by decide)
  exact ⟨h.1, by rw [h.2]; decide⟩

/-- Claim C5: for every non-empty monthly aggregation — possibly with
gaps or unsorted months — `totals_series` returns a series whose index is
exactly the calendar months from the earliest (`lo`) to the latest (`hi`)
observed month inclusive, in ascending order with exactly one entry per
month, and every month absent from the input carries revenue `0.0`. -/
theorem c5_totals_series_gap_filled (monthly : List (ℕ × ℚ)) (lo hi : ℕ)
    (hlo : (monthly.map Prod.fst).min? = some lo)
    (hhi : (monthly.map Prod.fst).max? = some hi) :
    (totals_series monthly).map Prod.fst =
      (List.range (hi + 1 - lo)).map (fun i => lo + i) ∧
    (∀ m, lo ≤ m → m ≤ hi →
        ((totals_series monthly).map Prod.fst).count m = 1) ∧
    List.Sorted (· < ·) ((totals_series monthly).map Prod.fst) ∧
    (∀ p ∈ totals_series monthly, p.1 ∉ monthly.map Prod.fst → p.2 = 0) := by
  have key : totals_series monthly =
      (List.range (hi + 1 - lo)).map
        (fun i => (lo + i,
          ((monthly.filter (fun p => p.1 = lo + i)).map Prod.snd).sum)) := by
    simp only [totals_series, hlo, hhi]
  have hfst : (totals_series monthly).map Prod.fst =
      (List.range (hi + 1 - lo)).map (fun i => lo + i) := by
    rw [key, List.map_map]
    rfl
  refine ⟨hfst, ?_, ?_, ?_⟩
  · intro m hm1 hm2
    rw [hfst]
    have hmem : m ∈ (List.range (hi + 1 - lo)).map (fun i => lo + i) :=
      List.mem_map.mpr ⟨m - lo, List.mem_range.mpr (by omega), by omega⟩
    have hnd : ((List.range (hi + 1 - lo)).map (fun i => lo + i)).Nodup :=
      (List.nodup_range _).map (fun a b hab => by omega)
    exact List.count_eq_one_of_mem hnd hmem
  · rw [hfst]
    exact List.Pairwise.map _ (fun a b hab => by omega) (List.sorted_lt_range _)
  · intro p hp hnot
    rw [key] at hp
    obtain ⟨i, _, rfl⟩ := List.mem_map.mp hp
    have hfil : monthly.filter (fun p => p.1 = lo + i) = [] := by
      rw [List.filter_eq_nil_iff]
      intro a ha hdec
      exact hnot (List.mem_map.mpr ⟨a, ha, by simpa using hdec⟩)
    simp [hfil]

/-- Witness for C5 at the concrete gapped, unsorted aggregation
`[(5, 10), (3, 4), (3, 6)]`: the output covers months 3..5 ascending,
month 4 appears exactly once, and the absent month 4 is filled with 0
while the duplicated month 3 is summed. -/
theorem c5_totals_series_gap_filled_witness :
    (totals_series [(5, 10), (3, 4), (3, 6)]).map Prod.fst = [3, 4, 5] ∧
    ((totals_series [(5, 10), (3, 4), (3, 6)]).map Prod.fst).count 4 = 1 ∧
    totals_series [(5, 10), (3, 4), (3, 6)] = [(3, 10), (4, 0), (5, 10)] := by
  have h := c5_totals_series_gap_filled [(5, 10), (3, 4), (3, 6)] 3 5
    (by decide) (by decide)
  exact ⟨by rw [h.1]; decide, h.2.1 4 (by decide) (by decide),
    by norm_num [totals_series, List.filter_cons, List.filter_nil, List.range_succ]⟩

lemma popVar_nonneg (xs : List ℚ) : 0 ≤ popVar xs := by
  unfold popVar mean
  apply div_nonneg
  · apply List.sum_nonneg
    intro x hx
    obtain ⟨y, _, rfl⟩ := List.mem_map.mp hx
    positivity
  · exact Nat.cast_nonneg _

/-- Claim C6: for every residual series and every positive threshold,
`detect_anomalies` computes the mean and the population standard
deviation — the square root of the divisor-`N` variance, not `N-1` — of
the residual values, assigns each month the standardized score
`(residual - mean) / stddev`, marks a month anomalous exactly when
`|score| >= threshold`, and preserves the input month ordering. -/
theorem c6_detect_scores_and_flags (rs : List (ℕ × ℚ)) (t : ℝ) (_ht : 0 < t) :
    (detect_anomalies rs t).map AnomalyRecord.month = rs.map Prod.fst ∧
    (detect_anomalies rs t).map AnomalyRecord.residual = rs.map Prod.snd ∧
    (detect_anomalies rs t).map AnomalyRecord.score =
      rs.map (fun p =>
        ((p.2 : ℝ) - ((mean (rs.map Prod.snd) : ℚ) : ℝ)) /
          popStd (rs.map Prod.snd)) ∧
    (detect_anomalies rs t).map AnomalyRecord.isAnomaly =
      rs.map (fun p =>
        |((p.2 : ℝ) - ((mean (rs.map Prod.snd) : ℚ) : ℝ)) /
            popStd (rs.map Prod.snd)| ≥ t) ∧
    popVar (rs.map Prod.snd) =
      ((rs.map Prod.snd).map
        (fun x => (x - mean (rs.map Prod.snd)) ^ 2)).sum /
        ((rs.map Prod.snd).length : ℚ) ∧
    popStd (rs.map Prod.snd) = Real.sqrt ((popVar (rs.map Prod.snd) : ℚ) : ℝ) := by
  have hs : ∀ p : ℕ × ℚ,
      (if popStd (rs.map Prod.snd) = 0 then (0 : ℝ)
       else ((p.2 : ℝ) - ((mean (rs.map Prod.snd) : ℚ) : ℝ)) /
         popStd (rs.map Prod.snd)) =
      ((p.2 : ℝ) - ((mean (rs.map Prod.snd) : ℚ) : ℝ)) /
        popStd (rs.map Prod.snd) := by
    intro p
    by_cases h : popStd (rs.map Prod.snd) = 0
    · rw [if_pos h, h, div_zero]
    · rw [if_neg h]
  refine ⟨?_, ?_, ?_, ?_, ?_, rfl⟩
  · simp only [detect_anomalies, List.map_map]
    rfl
  · simp only [detect_anomalies, List.map_map]
    rfl
  · simp only [detect_anomalies, List.map_map]
    exact List.map_congr_left (fun p _ => hs p)
  · simp only [detect_anomalies, List.map_map]
    exact List.map_congr_left
      (fun p _ => congrArg (fun x : ℝ => |x| ≥ t) (hs p))
  · simp [popVar, mean]

/-- Witness for C6 at residuals `[(3, 2), (7, 4)]`, threshold 1: months
and residual values are passed through in order. -/
theorem c6_detect_scores_and_flags_witness :
    (detect_anomalies [(3, 2), (7, 4)] 1).map AnomalyRecord.month = [3, 7] ∧
    (detect_anomalies [(3, 2), (7, 4)] 1).map AnomalyRecord.residual = [2, 4] := by
  have h := c6_detect_scores_and_flags [(3, 2), (7, 4)] 1 (by norm_num)
  exact ⟨h.1, h.2.1⟩

/-- Claim C7: for every constant residual series the population standard
deviation is 0, every month gets standardized score 0, and no month is
flagged anomalous, whatever the positive threshold; the degenerate case
yields a total result rather than an error. -/
theorem c7_constant_residuals_unflagged (rs : List (ℕ × ℚ)) (t : ℝ) (c : ℚ)
    (ht : 0 < t) (hc : ∀ p ∈ rs, p.2 = c) :
    popStd (rs.map Prod.snd) = 0 ∧
    (detect_anomalies rs t).map AnomalyRecord.score =
      List.replicate rs.length 0 ∧
    (detect_anomalies rs t).map AnomalyRecord.isAnomaly =
      List.replicate rs.length False := by
  have hvals : ∀ x ∈ rs.map Prod.snd, x = c := by
    intro x hx
    obtain ⟨p, hp, rfl⟩ := List.mem_map.mp hx
    exact hc p hp
  have hrep := List.eq_replicate_of_mem hvals
  have hvar : popVar (rs.map Prod.snd) = 0 := by
    by_cases hnil : rs = []
    · subst hnil
      simp [popVar, mean]
    · have hn : ((rs.map Prod.snd).length : ℚ) ≠ 0 := by
        simp only [List.length_map, Nat.cast_ne_zero]
        exact fun h => hnil (List.length_eq_zero.mp h)
      have hmean : mean (rs.map Prod.snd) = c := by
        rw [mean, hrep]
        simp only [List.sum_replicate, List.length_replicate, nsmul_eq_mul]
        exact mul_div_cancel_left₀ c hn
      have hzero : (rs.map Prod.snd).map
          (fun x => (x - mean (rs.map Prod.snd)) ^ 2) =
          List.replicate (rs.map Prod.snd).length 0 := by
        have := List.eq_replicate_of_mem (l := (rs.map Prod.snd).map
            (fun x => (x - mean (rs.map Prod.snd)) ^ 2)) (a := (0 : ℚ)) ?_
        · simpa using this
        intro b hb
        obtain ⟨x, hx, rfl⟩ := List.mem_map.mp hb
        rw [hvals x hx, hmean]
        ring
      rw [popVar, hzero, mean]
      simp
  have hstd : popStd (rs.map Prod.snd) = 0 := by
    rw [popStd, hvar]
    simp
  have hsc : ∀ p : ℕ × ℚ,
      (if popStd (rs.map Prod.snd) = 0 then (0 : ℝ)
       else ((p.2 : ℝ) - ((mean (rs.map Prod.snd) : ℚ) : ℝ)) /
         popStd (rs.map Prod.snd)) = 0 := fun _ => if_pos hstd
  refine ⟨hstd, ?_, ?_⟩
  · simp only [detect_anomalies, List.map_map]
    exact (List.map_congr_left (fun p _ => hsc p)).trans (List.map_const' rs 0)
  · simp only [detect_anomalies, List.map_map]
    refine (List.map_congr_left (fun p _ => ?_)).trans (List.map_const' rs False)
    show (|if popStd (rs.map Prod.snd) = 0 then (0 : ℝ)
           else ((p.2 : ℝ) - ((mean (rs.map Prod.snd) : ℚ) : ℝ)) /
             popStd (rs.map Prod.snd)| ≥ t) = False
    rw [hsc p, abs_zero]
    exact eq_false (not_le.mpr ht)

/-- Witness for C7 at the constant residual series `[(0,5),(1,5),(2,5)]`
with threshold 3: zero scores, no flags. -/
theorem c7_constant_residuals_unflagged_witness :
    popStd (([(0, 5), (1, 5), (2, 5)] : List (ℕ × ℚ)).map Prod.snd) = 0 ∧
    (detect_anomalies [(0, 5), (1, 5), (2, 5)] 3).map AnomalyRecord.score =
      [0, 0, 0] ∧
    (detect_anomalies [(0, 5), (1, 5), (2, 5)] 3).map AnomalyRecord.isAnomaly =
      [False, False, False] := by
  have h := c7_constant_residuals_unflagged [(0, 5), (1, 5), (2, 5)] 3 5
    (by norm_num) (by decide)
  exact ⟨h.1, h.2.1, h.2.2⟩

/-- Claim C8: the rescaler multiplies each record's half-widths around
the point estimate by the fixed factor — 1.00 for 80%, 1.15 for 85%,
1.35 for 90%, 1.80 for 95%, and 1.00 for any unlisted level — and then
re-clamps the new lower and upper bounds to be non-negative; in
particular `yhat = 100, lower = 80, upper = 120` rescaled to 95% yields
`lower = 64` and `upper = 136`. -/
theorem c8_rescale_fixed_factors :
    rescaleFactor 80 = 1 ∧
    rescaleFactor 85 = 23 / 20 ∧
    rescaleFactor 90 = 27 / 20 ∧
    rescaleFactor 95 = 9 / 5 ∧
    (∀ l, l ≠ 80 → l ≠ 85 → l ≠ 90 → l ≠ 95 → rescaleFactor l = 1) ∧
    (∀ l r, rescale_ci l r =
      ⟨r.month, r.yhat,
       max 0 (r.yhat - (r.yhat - r.lower) * rescaleFactor l),
       max 0 (r.yhat + (r.upper - r.yhat) * rescaleFactor l)⟩) ∧
    rescale_ci 95 ⟨0, 100, 80, 120⟩ = ⟨0, 100, 64, 136⟩ := by
  refine ⟨rfl, rfl, rfl, rfl, ?_, fun l r => rfl, ?_⟩
  · intro l h80 h85 h90 h95
    rw [rescaleFactor, if_neg h80, if_neg h85, if_neg h90, if_neg h95]
  · rw [rescale_ci]
    norm_num [rescaleFactor]

/-- Claim C9: `monthly_agg` is not side-effect free on its argument —
after the call, the caller's DataFrame object holds a `Month` column
derived from `InvoiceDate`, so every frame whose `Month` column was not
already exactly that derived column has been modified in place. -/
theorem c9_monthly_agg_mutates_frame (df : TxFrame) :
    (monthly_agg df).1.month = some (df.invoiceDate.map monthCode) ∧
    (df.month ≠ some (df.invoiceDate.map monthCode) →
      (monthly_agg df).1 ≠ df) := by
  refine ⟨rfl, ?_⟩
  intro hne heq
  exact hne ((congrArg TxFrame.month heq).symm)

/-- Witness for C9: a one-row frame with no `Month` column; after
`monthly_agg` the object carries the derived month code `24288`
(January 2024) and differs from its pre-call state. -/
theorem c9_monthly_agg_mutates_frame_witness :
    (monthly_agg ⟨[(2024, 1, 15)], [10], [0], [0], none⟩).1.month =
      some [24288] ∧
    (monthly_agg ⟨[(2024, 1, 15)], [10], [0], [0], none⟩).1 ≠
      ⟨[(2024, 1, 15)], [10], [0], [0], none⟩ := by
  have h := c9_monthly_agg_mutates_frame ⟨[(2024, 1, 15)], [10], [0], [0], none⟩
  exact ⟨by rw [h.1]; decide, h.2 (by decide)⟩

/-- Claim C10 as amended: for every non-empty series with fewer than 8
valid months, the first residual returned by `forecast_with_ci` is
exactly 0 — the trailing mean with window 3 and minimum window 1 over the
first month alone equals that month's value.  (The claim's further
consequence, that the earliest month can never be flagged anomalous under
any positive threshold, is false; see the counterexample.) -/
theorem c10_first_fallback_residual_zero (today : ℕ) (fit : SarimaxFit)
    (total : List (ℕ × Option ℚ)) (steps : ℕ)
    (h1 : dropna total ≠ []) (h2 : (dropna total).length < 8) :
    (forecast_with_ci today fit total steps).2.getD 0 (0, 0) =
      (((dropna total).getD 0 (0, 0)).1, 0) := by
  rw [fwc_fallback_eq today fit total steps h1 h2]
  have hlen : 0 < (dropna total).length := List.length_pos.mpr h1
  show (residualsFallback (dropna total)).getD 0 (0, 0) = _
  rw [residualsFallback, getD_range_map _ _ hlen, rollingMean3]
  have hwin : (((dropna total).map Prod.snd).take 1).drop 0 =
      [((dropna total).getD 0 (0, 0)).2] := by
    rw [List.drop_zero]
    rcases hs : dropna total with _ | ⟨p, rest⟩
    · exact absurd hs h1
    · simp [List.take_cons, hs]
  rw [hwin, mean]
  norm_num

/-- Witness for the amended C10 at the 2-month series `[(0,0), (1,3)]`:
the first residual is `(0, 0)`. -/
theorem c10_first_fallback_residual_zero_witness :
    (forecast_with_ci 0 trivialFit [(0, some 0), (1, some 3)] 2).2.getD 0 (0, 0) =
      (0, 0) := by
  have h := c10_first_fallback_residual_zero 0 trivialFit
    [(0, some 0), (1, some 3)] 2 (by decide) (by decide)
  rw [h]
  decide

/-- Counterexample to claim C10's consequence: for the short series
`[(0,0), (1,3)]` the fallback residuals are `[(0,0), (1,3/2)]` — the
earliest month's residual is 0 — yet with the positive threshold `1/2`
the detector flags the earliest month: its standardized score is
`(0 - 3/4) / (3/4) = -1` and `|-1| >= 1/2`. -/
theorem c10_earliest_month_flagged_counterexample :
    (forecast_with_ci 0 trivialFit [(0, some 0), (1, some 3)] 2).2 =
      [(0, 0), (1, 3 / 2)] ∧
    (0 : ℝ) < 1 / 2 ∧
    ((detect_anomalies
        (forecast_with_ci 0 trivialFit [(0, some 0), (1, some 3)] 2).2
        (1 / 2)).getD 0 ⟨0, 0, 0, False⟩).month = 0 ∧
    ((detect_anomalies
        (forecast_with_ci 0 trivialFit [(0, some 0), (1, some 3)] 2).2
        (1 / 2)).getD 0 ⟨0, 0, 0, False⟩).isAnomaly := by
  have hres : (forecast_with_ci 0 trivialFit [(0, some 0), (1, some 3)] 2).2 =
      [(0, 0), (1, 3 / 2)] := by
    rw [fwc_fallback_eq 0 trivialFit [(0, some 0), (1, some 3)] 2
      (by decide) (by decide)]
    show residualsFallback [(0, 0), (1, 3)] = _
    rw [residualsFallback]
    norm_num [List.range_succ, rollingMean3, mean, List.take_cons]
  have hvar : popVar (([(0, (0 : ℚ)), (1, 3 / 2)] : List (ℕ × ℚ)).map Prod.snd) =
      9 / 16 := by
    norm_num [popVar, mean]
  have hstd : popStd (([(0, (0 : ℚ)), (1, 3 / 2)] : List (ℕ × ℚ)).map Prod.snd) =
      3 / 4 := by
    rw [popStd, hvar]
    rw [show (((9 : ℚ) / 16 : ℚ) : ℝ) = (3 / 4 : ℝ) ^ 2 by push_cast; norm_num]
    rw [Real.sqrt_sq (by norm_num)]
  refine ⟨hres, by norm_num, ?_, ?_⟩
  · rw [hres]
    rfl
  · rw [hres]
    show ((detect_anomalies [(0, 0), (1, 3 / 2)] (1 / 2)).getD 0
      ⟨0, 0, 0, False⟩).isAnomaly
    simp only [detect_anomalies, List.map_cons, List.map_nil, List.getD_cons_zero]
    show |if popStd (([(0, (0 : ℚ)), (1, 3 / 2)] : List (ℕ × ℚ)).map Prod.snd) = 0
          then (0 : ℝ)
          else (((0 : ℚ) : ℝ) -
            ((mean (([(0, (0 : ℚ)), (1, 3 / 2)] : List (ℕ × ℚ)).map Prod.snd) : ℚ) : ℝ)) /
            popStd (([(0, (0 : ℚ)), (1, 3 / 2)] : List (ℕ × ℚ)).map Prod.snd)| ≥
        (1 / 2 : ℝ)
    rw [if_neg (by rw [hstd]; norm_num), hstd]
    have hmean : mean (([(0, (0 : ℚ)), (1, 3 / 2)] : List (ℕ × ℚ)).map Prod.snd) =
        3 / 4 := by
      norm_num [mean]
    rw [hmean]
    rw [show (((0 : ℚ) : ℝ) - (((3 : ℚ) / 4 : ℚ) : ℝ)) / (3 / 4 : ℝ) = -1 by
      push_cast; norm_num]
    norm_num

end RetailBI
